import Mathlib

/-!
Verification of the browser channel negotiation and transport subsystem of the
closure library: the `goog.net.WebSocket` reconnecting wrapper
(closure/goog/net/iframeloadmonitor.js, second document) and the
`goog.net.BrowserTestChannel` two-stage connection-capability state machine
(closure/goog/net/browsertestchannel.js).

The JavaScript is embedded shallowly: each handler/method becomes a Lean
function from the instance state (plus the parameters the handler reads from
its collaborators) to the updated state together with the list of observable
effects the handler performs (events dispatched, timers scheduled, requests
issued, callbacks into the owning channel).  The single-threaded event-loop
execution model becomes a step function over an input-event alphabet, and a
run is a left fold of that step function over an input list.
-/

namespace ClosureNet

/-! ## goog.net.WebSocket -/

/-- `goog.net.WebSocket.EXPONENTIAL_BACKOFF_CEILING_ = 60 * 1000`. -/
def EXPONENTIAL_BACKOFF_CEILING : Nat := 60 * 1000

/-- `goog.net.WebSocket.EXPONENTIAL_BACKOFF_`: the default reconnect backoff,
`min(Math.pow(2, attempt) * 1000, ceiling)`.  Exact naturals: for every
attempt the JS double arithmetic and this definition agree because the result
is capped at 60000 before any rounding could matter. -/
def EXPONENTIAL_BACKOFF (attempt : Nat) : Nat :=
  min (2 ^ attempt * 1000) EXPONENTIAL_BACKOFF_CEILING

/-- `goog.net.WebSocket.ReadyState_` of the underlying browser socket. -/
inductive RawReadyState where
  | CONNECTING
  | OPEN
  | CLOSING
  | CLOSED
deriving DecidableEq, Repr

/-- The underlying browser `WebSocket` handle (`this.webSocket_` when
non-null).  Only its `readyState` is relevant to the wrapper's logic. -/
structure RawSocket where
  readyState : RawReadyState
deriving DecidableEq, Repr

/-- Instance state of a `goog.net.WebSocket`: the private fields of the class.
`getNextReconnect` is the per-instance backoff function
(`this.getNextReconnect_`, defaulting to `EXPONENTIAL_BACKOFF`). -/
structure WSState where
  autoReconnect : Bool
  getNextReconnect : Nat → Nat
  webSocket : Option RawSocket
  url : Option String
  protocol : Option String
  closeExpected : Bool
  reconnectAttempt : Nat
  nextReconnect : Nat
  reconnectTimer : Option Nat

/-- The constructor `goog.net.WebSocket(opt_params)`: fields start at their
prototype defaults and `nextReconnect_ = getNextReconnect_(reconnectAttempt_)`
is computed with `reconnectAttempt_ = 0`. -/
def mkWebSocket (autoReconnect : Bool) (getNextReconnect : Nat → Nat) : WSState :=
  { autoReconnect := autoReconnect
    getNextReconnect := getNextReconnect
    webSocket := none
    url := none
    protocol := none
    closeExpected := false
    reconnectAttempt := 0
    nextReconnect := getNextReconnect 0
    reconnectTimer := none }

/-- A timer scheduled through `goog.Timer.callOnce` by `onClose_`; the bound
callback is `open(url, protocol)` with the values captured at scheduling. -/
structure TimerEntry where
  id : Nat
  url : Option String
  protocol : Option String
deriving DecidableEq, Repr

/-- The wrapper instance together with the event-loop timer queue: `pending`
holds the timers that have been scheduled and neither cleared nor fired, and
`nextId` generates fresh timer ids (timer ids are never reused). -/
structure WSWorld where
  ws : WSState
  pending : List TimerEntry
  nextId : Nat

/-- Observable effects of the WebSocket wrapper's handlers. -/
inductive WEffect where
  /-- `dispatchEvent(EventType.OPENED)` -/
  | dispatchOpened
  /-- `dispatchEvent(new ClosedEvent(code, reason, wasClean))` -/
  | dispatchClosed (code : Int) (reason : String) (wasClean : Bool)
  /-- `dispatchEvent(new MessageEvent(...))` -/
  | dispatchMessage
  /-- `dispatchEvent(new ErrorEvent(...))` -/
  | dispatchError
  /-- `goog.Timer.callOnce(open bound to url/protocol, delay)` returning `id` -/
  | timerScheduled (id : Nat) (delay : Nat)
  /-- `goog.Timer.clear(id)` -/
  | timerCleared (id : Nat)
  /-- `new WebSocket(url, protocol?)` -/
  | socketCreated (url : String)
  /-- `this.webSocket_.close()` -/
  | socketCloseCalled
deriving DecidableEq, Repr

/-- `clearReconnectTimer_`: `goog.Timer.clear` on the stored id when non-null,
then null the field.  Clearing removes the entry from the pending queue. -/
def clearReconnectTimer (w : WSWorld) : WSWorld × List WEffect :=
  match w.ws.reconnectTimer with
  | none => (w, [])
  | some id =>
      ({ w with
          ws := { w.ws with reconnectTimer := none }
          pending := w.pending.filter (fun e => e.id ≠ id) },
        [.timerCleared id])

/-- `isOpen()`: true iff a socket handle exists and its ready state is OPEN. -/
def wsIsOpen (s : WSState) : Bool :=
  match s.webSocket with
  | some raw => raw.readyState = RawReadyState.OPEN
  | none => false

/-- `open(url, opt_protocol)`.  The `goog.asserts.assert(!this.isOpen())`
precondition is modelled by returning the world unchanged when violated (an
assertion failure throws before any state is mutated).  Otherwise: clear any
pending reconnect timer, store url/protocol, construct the raw socket
(readyState CONNECTING) and register the four event bridges. -/
def wsOpen (url : String) (protocol : Option String) (w : WSWorld) :
    WSWorld × List WEffect :=
  if wsIsOpen w.ws then (w, [])
  else
    let (w1, effs) := clearReconnectTimer w
    ({ w1 with
        ws := { w1.ws with
                  url := some url
                  protocol := protocol
                  webSocket := some ⟨RawReadyState.CONNECTING⟩ } },
      effs ++ [.socketCreated url])

/-- `close()`: clear any pending reconnect timer; then, only if a socket
handle exists, mark the close as expected, close the raw socket and null the
handle. -/
def wsClose (w : WSWorld) : WSWorld × List WEffect :=
  match (clearReconnectTimer w).1.ws.webSocket with
  | none => clearReconnectTimer w
  | some _ =>
      ({ (clearReconnectTimer w).1 with
          ws := { (clearReconnectTimer w).1.ws with
                    closeExpected := true, webSocket := none } },
        (clearReconnectTimer w).2 ++ [.socketCloseCalled])

/-- `onOpen_`: dispatch OPENED, reset `reconnectAttempt_` to 0 and recompute
`nextReconnect_`. -/
def wsOnOpen (w : WSWorld) : WSWorld × List WEffect :=
  ({ w with
      ws := { w.ws with
                reconnectAttempt := 0
                nextReconnect := w.ws.getNextReconnect 0 } },
    [.dispatchOpened])

/-- `onClose_(event)`: dispatch the ClosedEvent, null the socket handle, then
branch on `closeExpected_`: an expected close clears url/protocol; an
unexpected close with `autoReconnect_` schedules `open(url_, protocol_)` after
`nextReconnect_` ms, increments `reconnectAttempt_` and recomputes
`nextReconnect_`.  In all cases `closeExpected_` ends up false. -/
def wsOnClose (code : Int) (reason : String) (wasClean : Bool) (w : WSWorld) :
    WSWorld × List WEffect :=
  let s := { w.ws with webSocket := none }
  if s.closeExpected then
    ({ w with
        ws := { s with url := none, protocol := none, closeExpected := false } },
      [.dispatchClosed code reason wasClean])
  else if s.autoReconnect then
    ({ ws := { s with
                reconnectTimer := some w.nextId
                reconnectAttempt := s.reconnectAttempt + 1
                nextReconnect := s.getNextReconnect (s.reconnectAttempt + 1)
                closeExpected := false }
       pending := w.pending ++ [⟨w.nextId, s.url, s.protocol⟩]
       nextId := w.nextId + 1 },
      [.dispatchClosed code reason wasClean,
       .timerScheduled w.nextId s.nextReconnect])
  else
    ({ w with ws := { s with closeExpected := false } },
      [.dispatchClosed code reason wasClean])

/-- `onMessage_`: re-dispatch the payload. -/
def wsOnMessage (w : WSWorld) : WSWorld × List WEffect :=
  (w, [.dispatchMessage])

/-- `onError_`: re-dispatch as an error event; no reconnection logic. -/
def wsOnError (w : WSWorld) : WSWorld × List WEffect :=
  (w, [.dispatchError])

/-- A timer with id `id` fires: this is only possible while the timer is
still pending (a cleared timer's callback never runs).  Firing removes the
entry and invokes the bound callback, which for this class is always
`open(url_, protocol_)` as captured by `onClose_`.  The JS binding passes the
possibly-null captured url through; a null url is modelled as the empty
string the way JS coerces it at the `new WebSocket` call. -/
def wsFireTimer (id : Nat) (w : WSWorld) : WSWorld × List WEffect :=
  match w.pending.find? (fun e => e.id = id) with
  | none => (w, [])
  | some e =>
      let w1 := { w with pending := w.pending.filter (fun e' => e'.id ≠ id) }
      wsOpen (e.url.getD "") e.protocol w1

/-- Input alphabet for the WebSocket wrapper: the public calls and the
transport events the event loop can deliver. -/
inductive WEvent where
  | openCall (url : String) (protocol : Option String)
  | closeCall
  /-- the raw socket reports open: the platform moves `readyState` to OPEN
  and then `onOpen_` runs -/
  | transportOpen
  | transportClose (code : Int) (reason : String) (wasClean : Bool)
  | transportMessage
  | transportError
  | timerFire (id : Nat)
deriving DecidableEq, Repr

/-- Platform side of a transport-open delivery: the raw socket's ready state
becomes OPEN before the `onopen` bridge runs. -/
def rawMarkOpen (w : WSWorld) : WSWorld :=
  match w.ws.webSocket with
  | some _ => { w with ws := { w.ws with webSocket := some ⟨RawReadyState.OPEN⟩ } }
  | none => w

/-- One event-loop step of the wrapper. -/
def stepW (w : WSWorld) (e : WEvent) : WSWorld × List WEffect :=
  match e with
  | .openCall url protocol => wsOpen url protocol w
  | .closeCall => wsClose w
  | .transportOpen => wsOnOpen (rawMarkOpen w)
  | .transportClose code reason wasClean => wsOnClose code reason wasClean w
  | .transportMessage => wsOnMessage w
  | .transportError => wsOnError w
  | .timerFire id => wsFireTimer id w

/-- Run a list of input events, discarding effects. -/
def runW (es : List WEvent) (w : WSWorld) : WSWorld :=
  es.foldl (fun w e => (stepW w e).1) w

/-- The world as constructed: a fresh wrapper instance and an empty timer
queue. -/
def initW (autoReconnect : Bool) (getNextReconnect : Nat → Nat) : WSWorld :=
  { ws := mkWebSocket autoReconnect getNextReconnect
    pending := []
    nextId := 0 }

/-! ## goog.net.BrowserTestChannel -/

/-- `goog.net.BrowserTestChannel.State_`. -/
inductive TCState where
  | INIT
  | CHECKING_BLOCKED
  | CONNECTION_TESTING
deriving DecidableEq, Repr

/-- `goog.net.BrowserTestChannel.BLOCKED_TIMEOUT_`. -/
def BLOCKED_TIMEOUT : Nat := 5000

/-- `goog.net.BrowserTestChannel.BLOCKED_RETRIES_`. -/
def BLOCKED_RETRIES : Nat := 3

/-- `goog.net.BrowserTestChannel.BLOCKED_PAUSE_BETWEEN_RETRIES_`. -/
def BLOCKED_PAUSE_BETWEEN_RETRIES : Nat := 2000

/-- `goog.net.BrowserTestChannel.MIN_TIME_EXPECTED_BETWEEN_DATA_`. -/
def MIN_TIME_EXPECTED_BETWEEN_DATA : Int := 500

/-- JavaScript truthiness of a nullable string field such as
`this.blockedPrefix_`: `null`/`undefined` and the empty string are falsy. -/
def jsTruthy : Option String → Bool
  | none => false
  | some s => !s.isEmpty

/-- JavaScript numeric coercion of a nullable number, as it occurs in
`this.firstTime_ - this.startTime_` (null coerces to 0). -/
def jsNum : Option Int → Int
  | none => 0
  | some n => n

/-- `goog.net.browserchannelinternal.stats.Stat` values notified by this
file. -/
inductive Stat where
  | TEST_STAGE_ONE_START
  | TEST_STAGE_ONE_FAILED
  | TEST_STAGE_TWO_START
  | TEST_STAGE_TWO_FAILED
  | TEST_STAGE_TWO_DATA_ONE
  | TEST_STAGE_TWO_DATA_TWO
  | TEST_STAGE_TWO_DATA_BOTH
  | PROXY
  | NOPROXY
  | CHANNEL_BLOCKED
deriving DecidableEq, Repr

/-- `goog.net.browserchannelinternal.ServerReachability` event kinds used by
the test channel. -/
inductive Reach where
  | REQUEST_MADE
  | REQUEST_SUCCEEDED
deriving DecidableEq, Repr

/-- `goog.net.ChannelRequest.Error` values relevant here (`BAD_DATA` is the
one produced by this file; the others flow through from the request). -/
inductive ChanErr where
  | STATUS
  | NO_DATA
  | TIMEOUT
  | BAD_DATA
  | HANDLER_EXCEPTION
  | BROWSER_OFFLINE
deriving DecidableEq, Repr

/-- The JS function from whose body `connectStage2_` is invoked. -/
inductive Caller where
  | connectFn
  | onRequestCompleteFn
  | checkBlockedCallbackFn
deriving DecidableEq, Repr

/-- The network requests the test channel can issue. -/
inductive RequestKind where
  /-- stage 1: `xmlHttpGet` with `MODE=init` -/
  | stage1Init
  /-- stage 2 with XHR streaming support: `xmlHttpGet` with `TYPE=xmlhttp` -/
  | stage2Xhr
  /-- stage 2 without streaming support: `tridentGet` with `TYPE=html` -/
  | stage2Trident
deriving DecidableEq, Repr

/-- Observable effects of the test channel's handlers: stat notifications,
reachability notifications, network requests issued or cancelled, blocked
probes, and the callbacks into the owning `BrowserChannel`. -/
inductive TCEffect where
  | statEvent (s : Stat)
  | notifyReachability (r : Reach)
  | issueRequest (k : RequestKind)
  /-- `this.request_.cancel()` -/
  | cancelRequest
  /-- `goog.net.tmpnetwork.testLoadImageWithRetries(...)` invoked (the whole
  retrying probe, viewed atomically at the state-machine level) -/
  | probeCall
  /-- a single image-load probe attempt is issued (the refined, per-attempt
  view of the blocked check used by `blockedCheckTrace`) -/
  | probeAttempt
  /-- `connectStage2_()` invoked, recording the enclosing JS function -/
  | calledConnectStage2 (c : Caller)
  /-- `this.channel_.testConnectionFinished(this, ok)` -/
  | testConnectionFinished (ok : Bool)
  /-- `this.channel_.testConnectionFailure(this, e)` -/
  | testConnectionFailure (e : ChanErr)
  /-- `this.channel_.testConnectionBlocked(this)` -/
  | testConnectionBlocked
deriving DecidableEq, Repr

/-- Instance state of a `goog.net.BrowserTestChannel`: the private fields the
handlers read and write.  `hasRequest` stands for `this.request_ != null` and
`probeOutstanding` for a `checkBlockedCallback_` having been handed to a
not-yet-finished `testLoadImageWithRetries` call. -/
structure TestChannel where
  state : Option TCState
  hostPrefix : Option String
  blockedPrefix : Option String
  receivedIntermediateResult : Bool
  startTime : Option Int
  firstTime : Option Int
  lastTime : Option Int
  lastStatusCode : Int
  hasRequest : Bool
  probeOutstanding : Bool
deriving DecidableEq, Repr

/-- A test channel as constructed: every field at its prototype default. -/
def mkTestChannel : TestChannel :=
  { state := none
    hostPrefix := none
    blockedPrefix := none
    receivedIntermediateResult := false
    startTime := none
    firstTime := none
    lastTime := none
    lastStatusCode := -1
    hasRequest := false
    probeOutstanding := false }

/-- The collaborators of a test channel, fixed for a run: the owning
`BrowserChannel`'s cached results and host-prefix correction, the platform's
streaming capability, and the injected response parser.  A parse result is a
JS array of nullable strings; a raised parse exception is `.error`. -/
structure TCEnv where
  firstTestResults : Option (List (Option String))
  secondTestResults : Option Bool
  correctHostPrefix : Option String → Option String
  supportsXhrStreaming : Bool
  parse : String → Except String (List (Option String))

/-- JS array indexing `arr[i]` on a parsed response array: out-of-range gives
`undefined`, modelled as `none`. -/
def jsIndex (arr : List (Option String)) (i : Nat) : Option String :=
  (arr.get? i).join

/-- `checkBlocked_`: build the unique probe URI, invoke
`goog.net.tmpnetwork.testLoadImageWithRetries` with the blocked-check
constants, then notify a `REQUEST_MADE` reachability event.  Note the order:
the probe call (which synchronously issues the first image-load attempt)
precedes the reachability notification. -/
def checkBlocked (tc : TestChannel) : TestChannel × List TCEffect :=
  ({ tc with probeOutstanding := true },
    [.probeCall, .notifyReachability .REQUEST_MADE])

/-- `connectStage2_`: if the owner has cached second-test results, report the
outcome at once and skip the network request (a truthy cached value means a
buffered/proxied connection, reported as `testConnectionFinished(this,
false)`; a falsy one is reported as `true`).  Otherwise create the request
and issue the stage-2 GET, `tridentGet`/`TYPE=html` without XHR streaming
support, `xmlHttpGet`/`TYPE=xmlhttp` with it. -/
def connectStage2 (env : TCEnv) (tc : TestChannel) : TestChannel × List TCEffect :=
  match env.secondTestResults with
  | some b =>
      if b then
        (tc, [.statEvent .TEST_STAGE_TWO_START, .statEvent .PROXY,
              .testConnectionFinished false])
      else
        (tc, [.statEvent .TEST_STAGE_TWO_START, .statEvent .NOPROXY,
              .testConnectionFinished true])
  | none =>
      if !env.supportsXhrStreaming then
        ({ tc with hasRequest := true },
          [.statEvent .TEST_STAGE_TWO_START, .issueRequest .stage2Trident])
      else
        ({ tc with hasRequest := true },
          [.statEvent .TEST_STAGE_TWO_START, .issueRequest .stage2Xhr])

/-- `checkBlockedCallback_(succeeded)`: on probe success move to
CONNECTION_TESTING and run `connectStage2_`; on failure notify the
CHANNEL_BLOCKED stat and report `testConnectionBlocked` to the owner.  A
`REQUEST_SUCCEEDED` reachability event is notified afterwards, only in the
success case (no `REQUEST_FAILED` is ever sent for the block request). -/
def checkBlockedCallback (env : TCEnv) (succeeded : Bool) (tc : TestChannel) :
    TestChannel × List TCEffect :=
  let tc := { tc with probeOutstanding := false }
  if succeeded then
    let tc1 := { tc with state := some .CONNECTION_TESTING }
    let (tc2, effs) := connectStage2 env tc1
    (tc2, .calledConnectStage2 .checkBlockedCallbackFn ::
          (effs ++ [.notifyReachability .REQUEST_SUCCEEDED]))
  else
    (tc, [.statEvent .CHANNEL_BLOCKED, .testConnectionBlocked])

/-- `connect(path)` at time `now`: notify TEST_STAGE_ONE_START and record
`startTime_`.  If the owner has cached first-test results, derive
`hostPrefix_`/`blockedPrefix_` from them and enter CHECKING_BLOCKED (truthy
blocked prefix, running `checkBlocked_`) or CONNECTION_TESTING (falsy,
running `connectStage2_`) without any stage-1 request.  Otherwise issue the
`MODE=init` GET and enter INIT. -/
def tcConnect (env : TCEnv) (now : Int) (tc : TestChannel) :
    TestChannel × List TCEffect :=
  let tc := { tc with startTime := some now }
  let pre : List TCEffect := [.statEvent .TEST_STAGE_ONE_START]
  match env.firstTestResults with
  | some arr =>
      let tc1 := { tc with
                    hostPrefix := env.correctHostPrefix (jsIndex arr 0)
                    blockedPrefix := jsIndex arr 1 }
      if jsTruthy tc1.blockedPrefix then
        let (tc2, effs) := checkBlocked { tc1 with state := some .CHECKING_BLOCKED }
        (tc2, pre ++ effs)
      else
        let tc2 := { tc1 with state := some .CONNECTION_TESTING }
        let (tc3, effs) := connectStage2 env tc2
        (tc3, pre ++ (.calledConnectStage2 .connectFn :: effs))
  | none =>
      ({ tc with hasRequest := true, state := some .INIT },
        pre ++ [.issueRequest .stage1Init])

/-- `onRequestData(req, responseText)` at time `now`, where `status` is
`req.getLastStatusCode()`.  In INIT: an empty response or a parser exception
is surfaced as a single `testConnectionFailure(this, BAD_DATA)` (the
exception is caught, so the handler still returns normally); a parsed
response sets `hostPrefix_` (owner-corrected element 0) and `blockedPrefix_`
(raw element 1).  In CONNECTION_TESTING: a second chunk records `lastTime_`;
a first chunk equal to the sentinel `"11111"` records `firstTime_`, sets
`receivedIntermediateResult_` and, when `checkForEarlyNonBuffered_` passes,
forces status 200, cancels the request and reports
`testConnectionFinished(this, true)` early; any other first chunk records
`firstTime_ = lastTime_ = now` and leaves `receivedIntermediateResult_`
false.  In any other state the handler only records the status code. -/
def onRequestData (env : TCEnv) (now : Int) (status : Int) (responseText : String)
    (tc : TestChannel) : TestChannel × List TCEffect :=
  let tc := { tc with lastStatusCode := status }
  if tc.state = some .INIT then
    if responseText.isEmpty then
      (tc, [.testConnectionFailure .BAD_DATA])
    else
      match env.parse responseText with
      | .error _ => (tc, [.testConnectionFailure .BAD_DATA])
      | .ok respArray =>
          ({ tc with
              hostPrefix := env.correctHostPrefix (jsIndex respArray 0)
              blockedPrefix := jsIndex respArray 1 }, [])
  else if tc.state = some .CONNECTION_TESTING then
    if tc.receivedIntermediateResult then
      ({ tc with lastTime := some now }, [.statEvent .TEST_STAGE_TWO_DATA_TWO])
    else
      if responseText = "11111" then
        let tc1 := { tc with receivedIntermediateResult := true, firstTime := some now }
        -- checkForEarlyNonBuffered_: streaming support, or first chunk within
        -- MIN_TIME_EXPECTED_BETWEEN_DATA_ of the start
        if env.supportsXhrStreaming ||
            jsNum tc1.firstTime - jsNum tc1.startTime < MIN_TIME_EXPECTED_BETWEEN_DATA then
          ({ tc1 with lastStatusCode := 200 },
            [.statEvent .TEST_STAGE_TWO_DATA_ONE, .cancelRequest,
             .statEvent .NOPROXY, .testConnectionFinished true])
        else
          (tc1, [.statEvent .TEST_STAGE_TWO_DATA_ONE])
      else
        ({ tc with firstTime := some now, lastTime := some now,
                   receivedIntermediateResult := false },
          [.statEvent .TEST_STAGE_TWO_DATA_BOTH])
  else
    (tc, [])

/-- `onRequestComplete(req)`, where `success` is `this.request_.getSuccess()`,
`err` its `getLastError()` and `status` its `getLastStatusCode()`.  A failed
request notifies the per-state failure stat and reports
`testConnectionFailure(this, err)`.  A successful INIT completion moves to
CHECKING_BLOCKED (truthy `blockedPrefix_`) or to CONNECTION_TESTING running
`connectStage2_`.  A successful CONNECTION_TESTING completion computes
`goodConn`: without XHR streaming from the observed inter-chunk gap
(`lastTime_ - firstTime_ < 200` means buffered), with it from
`receivedIntermediateResult_`; then reports
`testConnectionFinished(this, goodConn)`. -/
def onRequestComplete (env : TCEnv) (success : Bool) (err : ChanErr)
    (status : Int) (tc : TestChannel) : TestChannel × List TCEffect :=
  let tc := { tc with lastStatusCode := status }
  if !success then
    let stat : List TCEffect :=
      if tc.state = some .INIT then [.statEvent .TEST_STAGE_ONE_FAILED]
      else if tc.state = some .CONNECTION_TESTING then
        [.statEvent .TEST_STAGE_TWO_FAILED]
      else []
    (tc, stat ++ [.testConnectionFailure err])
  else if tc.state = some .INIT then
    if jsTruthy tc.blockedPrefix then
      let (tc1, effs) := checkBlocked { tc with state := some .CHECKING_BLOCKED }
      (tc1, effs)
    else
      let tc1 := { tc with state := some .CONNECTION_TESTING }
      let (tc2, effs) := connectStage2 env tc1
      (tc2, .calledConnectStage2 .onRequestCompleteFn :: effs)
  else if tc.state = some .CONNECTION_TESTING then
    let goodConn : Bool :=
      if !env.supportsXhrStreaming then
        !(jsNum tc.lastTime - jsNum tc.firstTime < 200)
      else
        tc.receivedIntermediateResult
    if goodConn then
      (tc, [.statEvent .NOPROXY, .testConnectionFinished true])
    else
      (tc, [.statEvent .PROXY, .testConnectionFinished false])
  else
    (tc, [])

/-- `abort()`: cancel an in-flight request and reset the status tracking. -/
def tcAbort (tc : TestChannel) : TestChannel × List TCEffect :=
  if tc.hasRequest then
    ({ tc with hasRequest := false, lastStatusCode := -1 }, [.cancelRequest])
  else
    ({ tc with lastStatusCode := -1 }, [])

/-- Input alphabet for a test-channel run: the owner's `connect` call and the
callbacks the event loop can deliver.  Request callbacks carry the data the
handler reads off the request object; the probe callback carries the overall
probe outcome. -/
inductive TCIn where
  | connectIn (now : Int)
  | dataIn (now : Int) (status : Int) (responseText : String)
  | completeIn (success : Bool) (err : ChanErr) (status : Int)
  | blockedCbIn (succeeded : Bool)
deriving DecidableEq, Repr

/-- One event-loop step of the test channel.  Request callbacks can only be
delivered while a request is outstanding, and the probe callback only while a
probe is outstanding; an input arriving without its source is a no-op (no such
callback exists to run). -/
def stepT (env : TCEnv) (tc : TestChannel) (i : TCIn) : TestChannel × List TCEffect :=
  match i with
  | .connectIn now => tcConnect env now tc
  | .dataIn now status text =>
      if tc.hasRequest then onRequestData env now status text tc else (tc, [])
  | .completeIn success err status =>
      if tc.hasRequest then onRequestComplete env success err status tc else (tc, [])
  | .blockedCbIn succeeded =>
      if tc.probeOutstanding then checkBlockedCallback env succeeded tc else (tc, [])

/-- Run a list of inputs, returning the final channel state. -/
def runT (env : TCEnv) (ins : List TCIn) (tc : TestChannel) : TestChannel :=
  ins.foldl (fun tc i => (stepT env tc i).1) tc

/-- The channel states visited by a run, the start state included. -/
def statesT (env : TCEnv) (ins : List TCIn) (tc : TestChannel) : List TestChannel :=
  match ins with
  | [] => [tc]
  | i :: rest => tc :: statesT env rest (stepT env tc i).1

/-- The concatenated effect trace of a run. -/
def traceT (env : TCEnv) (ins : List TCIn) (tc : TestChannel) : List TCEffect :=
  match ins with
  | [] => []
  | i :: rest => (stepT env tc i).2 ++ traceT env rest (stepT env tc i).1

/-- Modelled from the spec: the retrying image-load prober
`goog.net.tmpnetwork.testLoadImageWithRetries`, whose source is not part of
this snapshot (only its call site in `checkBlocked_` is).  Per the spec's
ConnectionProbe contract it issues one attempt, invokes its callback with
`true` on success, and on failure waits and retries while retries remain,
invoking the callback with `false` on exhaustion; it receives no reachability
sink (its call site passes only url, timeout, callback, retry count and
pause).  `outcomes` lists each attempt's success; a missing entry is a
failure.  Returns the per-attempt effect trace and the overall callback
value. -/
def probeModel : Nat → List Bool → List TCEffect × Bool
  | retries, outcomes =>
    if outcomes.headD false then ([.probeAttempt], true)
    else
      match retries with
      | 0 => ([.probeAttempt], false)
      | r + 1 =>
          let p := probeModel r outcomes.tail
          (.probeAttempt :: p.1, p.2)

/-- The complete effect trace of one blocked check (state CHECKING_BLOCKED),
refining `checkBlocked`'s atomic `.probeCall` by the per-attempt probe model:
`testLoadImageWithRetries` synchronously issues the first attempt, then
`checkBlocked_` notifies `REQUEST_MADE`; subsequent attempts run from the
probe's retry timers; finally `checkBlockedCallback_` runs on the overall
outcome. -/
def blockedCheckTrace (env : TCEnv) (outcomes : List Bool) (tc : TestChannel) :
    List TCEffect :=
  let tc1 := { tc with probeOutstanding := true }
  let p := probeModel BLOCKED_RETRIES outcomes
  match p.1 with
  | first :: rest =>
      first :: .notifyReachability .REQUEST_MADE ::
        (rest ++ (checkBlockedCallback env p.2 tc1).2)
  | [] => .notifyReachability .REQUEST_MADE :: (checkBlockedCallback env p.2 tc1).2

/-! ## Concrete collaborator instances used by counterexamples and witnesses -/

/-- An owner with cached second-test results `true` (a buffered connection was
previously detected); nothing else is consulted on the paths exercised. -/
def envCachedStage2True : TCEnv :=
  { firstTestResults := none
    secondTestResults := some true
    correctHostPrefix := fun x => x
    supportsXhrStreaming := true
    parse := fun _ => .error "unused" }

/-- An owner with cached first-test results whose blocked element is the empty
(falsy) string. -/
def envCachedFalsyBlocked : TCEnv :=
  { firstTestResults := some [some "hostA", some ""]
    secondTestResults := none
    correctHostPrefix := fun x => x
    supportsXhrStreaming := true
    parse := fun _ => .error "unused" }

/-- An owner with no cached results on a streaming-capable platform, whose
parser accepts exactly the stage-1 payload `["hostA",""]`. -/
def envNetworkFalsy : TCEnv :=
  { firstTestResults := none
    secondTestResults := none
    correctHostPrefix := fun x => x
    supportsXhrStreaming := true
    parse := fun t =>
      if t = "[\"hostA\",\"\"]" then .ok [some "hostA", some ""]
      else .error "parse error" }

/-- An owner with cached first-test results whose blocked element is truthy,
sending the channel into CHECKING_BLOCKED. -/
def envBlockedCheck : TCEnv :=
  { firstTestResults := some [some "hostA", some "blockedHostB"]
    secondTestResults := none
    correctHostPrefix := fun x => x
    supportsXhrStreaming := true
    parse := fun _ => .error "unused" }

/-- A streaming-capable platform with no cached results and an
always-raising parser. -/
def envStreaming : TCEnv :=
  { firstTestResults := none
    secondTestResults := none
    correctHostPrefix := fun x => x
    supportsXhrStreaming := true
    parse := fun _ => .error "parse failure" }

/-- A channel that has connected at time 0 and entered CONNECTION_TESTING. -/
def tcTesting : TestChannel :=
  { mkTestChannel with state := some TCState.CONNECTION_TESTING, startTime := some 0 }

/-- A channel waiting for its stage-1 response. -/
def tcInit : TestChannel :=
  { mkTestChannel with state := some TCState.INIT, startTime := some 0,
                       hasRequest := true }

/-- The channel state reached by `connect` under `envBlockedCheck`: in
CHECKING_BLOCKED with the probe outstanding. -/
def tcAtCheckingBlocked : TestChannel :=
  (tcConnect envBlockedCheck 0 mkTestChannel).1

/-! ## Trace vocabulary for the WebSocket claims -/

/-- Whether an input event is a transport-close delivery. -/
def isCloseEvent : WEvent → Bool
  | .transportClose _ _ _ => true
  | _ => false

/-- The number of transport-close deliveries in an event list. -/
def countCloses (es : List WEvent) : Nat :=
  es.countP isCloseEvent

/-- Events allowed between consecutive unexpected closes: anything except a
deliberate `close()` call (which would make the next close expected) and a
successful transport open (which would reset the attempt counter). -/
def noCloseNoOpen : WEvent → Bool
  | .closeCall => false
  | .transportOpen => false
  | _ => true

/-- The ids of the still-pending event-loop timers. -/
def pendingIds (w : WSWorld) : List Nat :=
  w.pending.map (fun e => e.id)

/-! ## Vocabulary for the falsy-blocked-prefix claim -/

/-- Invariant of a channel whose stage-1 outcome has a falsy blocked prefix:
it is not in CHECKING_BLOCKED, its stored blocked prefix is falsy, and no
blocked probe is outstanding. -/
def NoBlockedInv (tc : TestChannel) : Prop :=
  tc.state ≠ some TCState.CHECKING_BLOCKED ∧
  jsTruthy tc.blockedPrefix = false ∧
  tc.probeOutstanding = false

/-- The owner's cached first-test results, when present, carry a falsy
blocked prefix. -/
def cacheFalsy (env : TCEnv) : Prop :=
  ∀ arr, env.firstTestResults = some arr → jsTruthy (jsIndex arr 1) = false

/-- Whatever the parser makes of `text`, the resulting blocked prefix is
falsy (a parse failure trivially qualifies). -/
def parseFalsy (env : TCEnv) (text : String) : Prop :=
  ∀ arr, env.parse text = .ok arr → jsTruthy (jsIndex arr 1) = false

/-- Every data delivery in the run parses to a falsy blocked prefix. -/
def insFalsy (env : TCEnv) (ins : List TCIn) : Prop :=
  ∀ now status text, TCIn.dataIn now status text ∈ ins → parseFalsy env text

/-- Two wrapper states agree on every field that governs reconnect
scheduling. -/
def sameCounters (a b : WSState) : Prop :=
  a.autoReconnect = b.autoReconnect ∧ a.closeExpected = b.closeExpected ∧
  a.getNextReconnect = b.getNextReconnect ∧
  a.reconnectAttempt = b.reconnectAttempt ∧ a.nextReconnect = b.nextReconnect

/-- Invariant of a default-backoff, auto-reconnecting socket that has seen
`k` unexpected closes since its last successful open: the attempt counter is
`k` and the precomputed next delay is the default backoff of `k`. -/
def ReconnectInv (k : Nat) (w : WSWorld) : Prop :=
  w.ws.autoReconnect = true ∧ w.ws.closeExpected = false ∧
  w.ws.getNextReconnect = EXPONENTIAL_BACKOFF ∧
  w.ws.reconnectAttempt = k ∧ w.ws.nextReconnect = EXPONENTIAL_BACKOFF k

/-! ## Theorems -/

/-- C9: after every transport-close event handled by `onClose_` — expected or
not, whatever the prior state — the `closeExpected_` flag is false again, so
each close event is classified from the `close()` calls made since the
preceding open alone, never from earlier closes. -/
theorem close_expected_cleared_after_every_close :
    ∀ (w : WSWorld) (code : Int) (reason : String) (wasClean : Bool),
      ((stepW w (.transportClose code reason wasClean)).1).ws.closeExpected = false := by
  intro w code reason wasClean
  simp only [stepW, wsOnClose]
  split
  · rfl
  · split <;> rfl

/-- C6 counterexample: on a socket constructed with auto-reconnect disabled,
an unexpected transport close (the `closeExpected_` flag is false) leaves
`reconnectAttempt_` at 0 instead of incrementing it, refuting the claim's
"regardless of configuration". -/
theorem reconnect_attempt_unconditional_increment_counterexample :
    (initW false EXPONENTIAL_BACKOFF).ws.closeExpected = false ∧
    ((stepW (initW false EXPONENTIAL_BACKOFF)
        (.transportClose 1006 "abnormal" false)).1).ws.reconnectAttempt = 0 ∧
    ¬ ((stepW (initW false EXPONENTIAL_BACKOFF)
        (.transportClose 1006 "abnormal" false)).1).ws.reconnectAttempt =
        (initW false EXPONENTIAL_BACKOFF).ws.reconnectAttempt + 1 :=
  ⟨rfl, rfl, by decide⟩

/-- C6 amended: `reconnectAttempt_` is reset to 0 on every successful
transport-open event; on an unexpected transport close it is incremented when
auto-reconnect is enabled and left unchanged when auto-reconnect is disabled;
an expected close leaves it unchanged. -/
theorem reconnect_attempt_reset_and_guarded_increment :
    ∀ (w : WSWorld) (code : Int) (reason : String) (wasClean : Bool),
      ((stepW w .transportOpen).1).ws.reconnectAttempt = 0 ∧
      ((stepW w (.transportClose code reason wasClean)).1).ws.reconnectAttempt =
        (if w.ws.closeExpected then w.ws.reconnectAttempt
         else if w.ws.autoReconnect then w.ws.reconnectAttempt + 1
         else w.ws.reconnectAttempt) := by
  intro w code reason wasClean
  constructor
  · simp [stepW, wsOnOpen]
  · by_cases hce : w.ws.closeExpected <;> by_cases har : w.ws.autoReconnect <;>
      simp [stepW, wsOnClose, hce, har]

/-- C3 counterexample: with cached stage-2 results equal to `true`,
`connectStage2_` reports `testConnectionFinished(this, false)` — the
negation of the cached boolean — and never reports `true`, refuting "the
cached boolean value itself as the reported outcome". -/
theorem cached_stage2_value_reported_counterexample :
    envCachedStage2True.secondTestResults = some true ∧
    TCEffect.testConnectionFinished false ∈
      (connectStage2 envCachedStage2True mkTestChannel).2 ∧
    TCEffect.testConnectionFinished true ∉
      (connectStage2 envCachedStage2True mkTestChannel).2 := by
  refine ⟨rfl, ?_, ?_⟩ <;> decide

/-- C3 amended: when cached stage-2 results are available, `connectStage2_`
issues no network request and immediately reports `testConnectionFinished`
with the negation of the cached boolean (a truthy cached value records a
buffered/proxy connection, reported as `false`). -/
theorem cached_stage2_skips_request_reports_negation :
    ∀ (env : TCEnv) (tc : TestChannel) (b : Bool),
      env.secondTestResults = some b →
      connectStage2 env tc =
        (tc, [.statEvent .TEST_STAGE_TWO_START,
              .statEvent (if b then .PROXY else .NOPROXY),
              .testConnectionFinished (!b)]) := by
  intro env tc b h
  simp only [connectStage2, h]
  cases b <;> rfl

/-- C3 witness: the amended theorem applied to the concrete owner with cached
stage-2 results `true`. -/
theorem cached_stage2_skips_request_witness :
    envCachedStage2True.secondTestResults = some true ∧
    connectStage2 envCachedStage2True mkTestChannel =
      (mkTestChannel,
        [.statEvent .TEST_STAGE_TWO_START, .statEvent .PROXY,
         .testConnectionFinished false]) :=
  ⟨rfl, cached_stage2_skips_request_reports_negation envCachedStage2True mkTestChannel true rfl⟩

/-- C2: in CONNECTION_TESTING on a transport with XHR streaming support, a
first data chunk equal to the sentinel `"11111"` arriving within 500 ms of
`connect` makes `onRequestData` cancel the in-flight request and report
`testConnectionFinished(this, true)` at once, without waiting for the second
chunk (the handler also forces the recorded status code to 200). -/
theorem early_nonbuffered_cancels_and_finishes :
    ∀ (env : TCEnv) (now status : Int) (tc : TestChannel),
      env.supportsXhrStreaming = true →
      tc.state = some TCState.CONNECTION_TESTING →
      tc.receivedIntermediateResult = false →
      now - jsNum tc.startTime < MIN_TIME_EXPECTED_BETWEEN_DATA →
      onRequestData env now status "11111" tc =
        ({ tc with lastStatusCode := 200, receivedIntermediateResult := true,
                   firstTime := some now },
          [.statEvent .TEST_STAGE_TWO_DATA_ONE, .cancelRequest,
           .statEvent .NOPROXY, .testConnectionFinished true]) := by
  intro env now status tc hstream hstate hfirst _
  simp [onRequestData, hstate, hfirst, hstream]

/-- C2 witness: the theorem at a concrete streaming-capable owner, with the
sentinel chunk arriving 100 ms after a connect at time 0. -/
theorem early_nonbuffered_cancels_and_finishes_witness :
    envStreaming.supportsXhrStreaming = true ∧
    tcTesting.state = some TCState.CONNECTION_TESTING ∧
    tcTesting.receivedIntermediateResult = false ∧
    (100 : Int) - jsNum tcTesting.startTime < MIN_TIME_EXPECTED_BETWEEN_DATA ∧
    onRequestData envStreaming 100 200 "11111" tcTesting =
      ({ tcTesting with lastStatusCode := 200, receivedIntermediateResult := true,
                        firstTime := some 100 },
        [.statEvent .TEST_STAGE_TWO_DATA_ONE, .cancelRequest,
         .statEvent .NOPROXY, .testConnectionFinished true]) :=
  ⟨rfl, rfl, rfl, by decide,
   early_nonbuffered_cancels_and_finishes envStreaming 100 200 tcTesting rfl rfl rfl
     (by decide)⟩

/-- C5: in INIT, an empty stage-1 response, or one on which the injected
parser raises, makes `onRequestData` report `testConnectionFailure(this,
BAD_DATA)` exactly once (a singleton effect list: no retry, no request)
while the machine state is left untouched (only the status-code tracking
changes); the parser exception is caught, so the handler returns normally. -/
theorem init_bad_data_single_failure :
    ∀ (env : TCEnv) (now status : Int) (text : String) (tc : TestChannel),
      tc.state = some TCState.INIT →
      (text = "" ∨ ∃ e, env.parse text = .error e) →
      onRequestData env now status text tc =
        ({ tc with lastStatusCode := status }, [.testConnectionFailure .BAD_DATA]) := by
  intro env now status text tc hstate hbad
  rcases hbad with hempty | ⟨e, herr⟩
  · subst hempty
    simp [onRequestData, hstate, String.isEmpty_iff]
  · by_cases hempty : text = ""
    · subst hempty
      simp [onRequestData, hstate, String.isEmpty_iff]
    · have hne : text.isEmpty = false := by
        cases h : text.isEmpty
        · rfl
        · exact absurd ((String.isEmpty_iff text).mp h) hempty
      simp [onRequestData, hstate, hne, herr]

/-- C5 witness: the theorem at a concrete channel in INIT whose parser raises
on the response text. -/
theorem init_bad_data_single_failure_witness :
    tcInit.state = some TCState.INIT ∧
    envStreaming.parse "garbage" = .error "parse failure" ∧
    onRequestData envStreaming 7 200 "garbage" tcInit =
      ({ tcInit with lastStatusCode := 200 }, [.testConnectionFailure .BAD_DATA]) :=
  ⟨rfl, rfl,
   init_bad_data_single_failure envStreaming 7 200 "garbage" tcInit rfl
     (Or.inr ⟨"parse failure", rfl⟩)⟩

/-- C10: in CONNECTION_TESTING with streaming support, a first chunk other
than the sentinel `"11111"` records `firstTime_` and `lastTime_` as the same
instant and leaves `receivedIntermediateResult_` false, so the subsequent
successful completion classifies the connection as buffered and reports
`testConnectionFinished(this, false)`. -/
theorem non_sentinel_first_chunk_reports_buffered :
    ∀ (env : TCEnv) (now status status2 : Int) (text : String) (err : ChanErr)
      (tc : TestChannel),
      env.supportsXhrStreaming = true →
      tc.state = some TCState.CONNECTION_TESTING →
      tc.receivedIntermediateResult = false →
      text ≠ "11111" →
      ((onRequestData env now status text tc).1.firstTime = some now ∧
       (onRequestData env now status text tc).1.lastTime = some now ∧
       (onRequestData env now status text tc).1.receivedIntermediateResult = false) ∧
      (onRequestComplete env true err status2
          (onRequestData env now status text tc).1).2 =
        [.statEvent .PROXY, .testConnectionFinished false] := by
  intro env now status status2 text err tc hstream hstate hfirst htext
  have hdata :
      (onRequestData env now status text tc).1 =
        { tc with lastStatusCode := status, firstTime := some now,
                  lastTime := some now, receivedIntermediateResult := false } := by
    simp [onRequestData, hstate, hfirst, htext]
  refine ⟨by simp [hdata], ?_⟩
  rw [hdata]
  simp [onRequestComplete, hstate, hstream]

/-- C10 witness: the theorem at a concrete channel receiving both chunks in a
single delivery `"11111122222"`. -/
theorem non_sentinel_first_chunk_reports_buffered_witness :
    envStreaming.supportsXhrStreaming = true ∧
    tcTesting.state = some TCState.CONNECTION_TESTING ∧
    tcTesting.receivedIntermediateResult = false ∧
    "11111122222" ≠ "11111" ∧
    ((onRequestData envStreaming 2100 200 "11111122222" tcTesting).1.firstTime = some 2100 ∧
     (onRequestData envStreaming 2100 200 "11111122222" tcTesting).1.lastTime = some 2100 ∧
     (onRequestData envStreaming 2100 200 "11111122222" tcTesting).1.receivedIntermediateResult
        = false) ∧
    (onRequestComplete envStreaming true ChanErr.STATUS 200
        (onRequestData envStreaming 2100 200 "11111122222" tcTesting).1).2 =
      [.statEvent .PROXY, .testConnectionFinished false] :=
  ⟨rfl, rfl, rfl, by decide,
   non_sentinel_first_chunk_reports_buffered envStreaming 2100 200 200 "11111122222"
     ChanErr.STATUS tcTesting rfl rfl rfl (by decide)⟩

/-- `clearReconnectTimer_` touches no reconnect-scheduling field. -/
theorem clearReconnectTimer_sameCounters (w : WSWorld) :
    sameCounters ((clearReconnectTimer w).1).ws w.ws := by
  unfold clearReconnectTimer
  cases h : w.ws.reconnectTimer <;> simp [sameCounters]

/-- `open` touches no reconnect-scheduling field. -/
theorem wsOpen_sameCounters (url : String) (protocol : Option String) (w : WSWorld) :
    sameCounters ((wsOpen url protocol w).1).ws w.ws := by
  unfold wsOpen
  split
  · simp [sameCounters]
  · have h := clearReconnectTimer_sameCounters w
    obtain ⟨h1, h2, h3, h4, h5⟩ := h
    exact ⟨h1, h2, h3, h4, h5⟩

/-- A firing timer only runs the bound `open` call, so it touches no
reconnect-scheduling field. -/
theorem wsFireTimer_sameCounters (id : Nat) (w : WSWorld) :
    sameCounters ((wsFireTimer id w).1).ws w.ws := by
  unfold wsFireTimer
  cases h : w.pending.find? (fun e => e.id = id) with
  | none => simp [sameCounters]
  | some e =>
      simp only
      have h2 := wsOpen_sameCounters (e.url.getD "") e.protocol
        { w with pending := w.pending.filter (fun e' => e'.id ≠ id) }
      exact h2

/-- States agreeing on the scheduling fields satisfy the same
`ReconnectInv`. -/
theorem reconnectInv_of_sameCounters (w w' : WSWorld) (k : Nat)
    (hs : sameCounters w'.ws w.ws) (h : ReconnectInv k w) : ReconnectInv k w' := by
  obtain ⟨s1, s2, s3, s4, s5⟩ := hs
  obtain ⟨h1, h2, h3, h4, h5⟩ := h
  exact ⟨s1.trans h1, s2.trans h2, s3.trans h3, s4.trans h4, s5.trans h5⟩

/-- One allowed step preserves `ReconnectInv`, advancing the close count on a
transport close and leaving it unchanged otherwise. -/
theorem reconnectInv_step (w : WSWorld) (k : Nat) (e : WEvent)
    (he : noCloseNoOpen e = true) (h : ReconnectInv k w) :
    ReconnectInv (k + (if isCloseEvent e then 1 else 0)) ((stepW w e).1) := by
  cases e with
  | openCall url protocol =>
      have hinv : ReconnectInv k ((wsOpen url protocol w).1) :=
        reconnectInv_of_sameCounters w _ k (wsOpen_sameCounters url protocol w) h
      simpa [stepW, isCloseEvent] using hinv
  | closeCall => simp [noCloseNoOpen] at he
  | transportOpen => simp [noCloseNoOpen] at he
  | transportClose code reason wasClean =>
      obtain ⟨h1, h2, h3, h4, h5⟩ := h
      simp [ReconnectInv, stepW, wsOnClose, isCloseEvent, h1, h2, h3, h4]
  | transportMessage =>
      obtain ⟨h1, h2, h3, h4, h5⟩ := h
      simp [ReconnectInv, stepW, wsOnMessage, isCloseEvent, h1, h2, h3, h4, h5]
  | transportError =>
      obtain ⟨h1, h2, h3, h4, h5⟩ := h
      simp [ReconnectInv, stepW, wsOnError, isCloseEvent, h1, h2, h3, h4, h5]
  | timerFire id =>
      have hinv : ReconnectInv k ((wsFireTimer id w).1) :=
        reconnectInv_of_sameCounters w _ k (wsFireTimer_sameCounters id w) h
      simpa [stepW, isCloseEvent] using hinv

/-- A run of allowed events preserves `ReconnectInv`, advancing the close
count by the number of transport closes in the run. -/
theorem reconnectInv_run (es : List WEvent) (w : WSWorld) (k : Nat)
    (hall : ∀ e ∈ es, noCloseNoOpen e = true) (h : ReconnectInv k w) :
    ReconnectInv (k + countCloses es) (runW es w) := by
  induction es generalizing w k with
  | nil => simpa [runW, countCloses]
  | cons e rest ih =>
      have he : noCloseNoOpen e = true := hall e (List.mem_cons_self e rest)
      have hrest : ∀ e' ∈ rest, noCloseNoOpen e' = true := fun e' h' =>
        hall e' (List.mem_cons_of_mem e h')
      have hstep := reconnectInv_step w k e he h
      have := ih (stepW w e).1 (k + (if isCloseEvent e then 1 else 0)) hrest hstep
      have hcount : k + (if isCloseEvent e then 1 else 0) + countCloses rest =
          k + countCloses (e :: rest) := by
        cases hc : isCloseEvent e
        · simp [countCloses, List.countP_cons, hc]
        · simp [countCloses, List.countP_cons, hc]
          omega
      rw [hcount] at this
      simpa [runW] using this

/-- C1: starting from construction (attempt 0) with auto-reconnect enabled
and the default backoff, after any allowed activity containing `N - 1`
transport closes and no successful open, the `N`-th unexpected close
schedules its reconnect timer with delay `min(2^(N-1) * 1000, 60000)` ms —
the delay is read from `nextReconnect_`, which was computed from the attempt
counter before this close increments it. -/
theorem nth_unexpected_close_schedules_backoff_delay :
    ∀ (N : Nat) (es : List WEvent) (code : Int) (reason : String) (wasClean : Bool),
      1 ≤ N →
      (∀ e ∈ es, noCloseNoOpen e = true) →
      countCloses es = N - 1 →
      (stepW (runW es (initW true EXPONENTIAL_BACKOFF))
          (.transportClose code reason wasClean)).2 =
        [.dispatchClosed code reason wasClean,
         .timerScheduled (runW es (initW true EXPONENTIAL_BACKOFF)).nextId
           (min (2 ^ (N - 1) * 1000) 60000)] := by
  intro N es code reason wasClean hN hall hcount
  have hbase : ReconnectInv 0 (initW true EXPONENTIAL_BACKOFF) :=
    ⟨rfl, rfl, rfl, rfl, rfl⟩
  have hinv := reconnectInv_run es (initW true EXPONENTIAL_BACKOFF) 0 hall hbase
  rw [Nat.zero_add, hcount] at hinv
  obtain ⟨h1, h2, h3, h4, h5⟩ := hinv
  simp only [stepW, wsOnClose, h2, h1]
  simp [h5, EXPONENTIAL_BACKOFF, EXPONENTIAL_BACKOFF_CEILING]

/-- C1 witness: the seventh consecutive unexpected close is scheduled at the
60000 ms ceiling (`min(2^6 * 1000, 60000)`). -/
theorem nth_unexpected_close_schedules_backoff_delay_witness :
    (1 ≤ 7 ∧
     (∀ e ∈ List.replicate 6 (WEvent.transportClose 1006 "lost" false),
        noCloseNoOpen e = true) ∧
     countCloses (List.replicate 6 (WEvent.transportClose 1006 "lost" false)) = 7 - 1) ∧
    (stepW (runW (List.replicate 6 (WEvent.transportClose 1006 "lost" false))
        (initW true EXPONENTIAL_BACKOFF)) (.transportClose 1006 "lost" false)).2 =
      [.dispatchClosed 1006 "lost" false,
       .timerScheduled (runW (List.replicate 6 (WEvent.transportClose 1006 "lost" false))
           (initW true EXPONENTIAL_BACKOFF)).nextId
         (min (2 ^ (7 - 1) * 1000) 60000)] :=
  ⟨⟨by decide, by decide, by decide⟩,
   nth_unexpected_close_schedules_backoff_delay 7
     (List.replicate 6 (WEvent.transportClose 1006 "lost" false)) 1006 "lost" false
     (by decide) (by decide) (by decide)⟩

/-- `clearReconnectTimer_` leaves the fresh-id counter alone. -/
theorem clearReconnectTimer_nextId (w : WSWorld) :
    ((clearReconnectTimer w).1).nextId = w.nextId := by
  unfold clearReconnectTimer
  cases h : w.ws.reconnectTimer <;> simp

/-- `clearReconnectTimer_` only removes pending timers, never adds one. -/
theorem clearReconnectTimer_pending_sub (w : WSWorld) (i : Nat)
    (h : i ∈ pendingIds ((clearReconnectTimer w).1)) : i ∈ pendingIds w := by
  unfold clearReconnectTimer at h
  cases hr : w.ws.reconnectTimer with
  | none => rw [hr] at h; exact h
  | some tid =>
      rw [hr] at h
      simp only [pendingIds, List.mem_map, List.mem_filter] at h ⊢
      obtain ⟨e, ⟨hmem, _⟩, he⟩ := h
      exact ⟨e, hmem, he⟩

/-- `open` leaves the fresh-id counter alone. -/
theorem wsOpen_nextId (url : String) (protocol : Option String) (w : WSWorld) :
    ((wsOpen url protocol w).1).nextId = w.nextId := by
  unfold wsOpen
  split
  · rfl
  · exact clearReconnectTimer_nextId w

/-- `open` never adds a pending timer. -/
theorem wsOpen_pending_sub (url : String) (protocol : Option String) (w : WSWorld)
    (i : Nat) (h : i ∈ pendingIds ((wsOpen url protocol w).1)) : i ∈ pendingIds w := by
  unfold wsOpen at h
  split at h
  · exact h
  · exact clearReconnectTimer_pending_sub w i h

/-- An id that is below the fresh-id counter and not pending stays that way
across every step: cleared (or fired) timers are gone for good because fresh
ids are never reused. -/
theorem deadId_step (w : WSWorld) (e : WEvent) (id : Nat)
    (hlt : id < w.nextId) (hmem : id ∉ pendingIds w) :
    id < ((stepW w e).1).nextId ∧ id ∉ pendingIds ((stepW w e).1) := by
  cases e with
  | openCall url protocol =>
      refine ⟨?_, fun hc => hmem ?_⟩
      · rw [stepW, wsOpen_nextId]; exact hlt
      · exact wsOpen_pending_sub url protocol w id hc
  | closeCall =>
      have hn : ((wsClose w).1).nextId = w.nextId := by
        unfold wsClose
        cases hs : ((clearReconnectTimer w).1).ws.webSocket <;>
          simp [clearReconnectTimer_nextId]
      have hp : id ∉ pendingIds ((wsClose w).1) := by
        intro hc
        apply hmem
        apply clearReconnectTimer_pending_sub
        unfold wsClose at hc
        cases hs : ((clearReconnectTimer w).1).ws.webSocket <;> rw [hs] at hc
        · exact hc
        · simpa [pendingIds] using hc
      exact ⟨by rw [stepW, hn]; exact hlt, hp⟩
  | transportOpen =>
      constructor
      · simp only [stepW, wsOnOpen, rawMarkOpen]
        cases hs : w.ws.webSocket <;> simp [hs, hlt]
      · intro hc
        apply hmem
        simp only [stepW, wsOnOpen, rawMarkOpen] at hc
        cases hs : w.ws.webSocket <;> simp only [hs] at hc <;>
          simpa [pendingIds] using hc
  | transportClose code reason wasClean =>
      constructor
      · simp only [stepW, wsOnClose]
        split
        · exact hlt
        · split
          · exact Nat.lt_succ_of_lt hlt
          · exact hlt
      · intro hc
        simp only [stepW, wsOnClose] at hc
        split at hc
        · exact hmem hc
        · split at hc
          · simp only [pendingIds, List.map_append, List.mem_append] at hc
            rcases hc with hc | hc
            · exact hmem hc
            · simp at hc
              omega
          · exact hmem hc
  | transportMessage => exact ⟨hlt, hmem⟩
  | transportError => exact ⟨hlt, hmem⟩
  | timerFire fid =>
      simp only [stepW, wsFireTimer]
      cases hf : w.pending.find? (fun e => e.id = fid) with
      | none => exact ⟨hlt, hmem⟩
      | some entry =>
          have hsub : ∀ i,
              i ∈ pendingIds { w with pending := w.pending.filter (fun e' => e'.id ≠ fid) } →
              i ∈ pendingIds w := by
            intro i hi
            simp only [pendingIds, List.mem_map, List.mem_filter] at hi ⊢
            obtain ⟨e, ⟨hmeme, _⟩, he⟩ := hi
            exact ⟨e, hmeme, he⟩
          refine ⟨?_, fun hc => hmem ?_⟩
          · rw [wsOpen_nextId]; exact hlt
          · exact hsub id (wsOpen_pending_sub _ _ _ id hc)

/-- `deadId_step` extended over any run. -/
theorem deadId_run (es : List WEvent) (w : WSWorld) (id : Nat)
    (hlt : id < w.nextId) (hmem : id ∉ pendingIds w) :
    id < (runW es w).nextId ∧ id ∉ pendingIds (runW es w) := by
  induction es generalizing w with
  | nil => exact ⟨hlt, hmem⟩
  | cons e rest ih =>
      have hstep := deadId_step w e id hlt hmem
      simpa [runW] using ih (stepW w e).1 hstep.1 hstep.2

/-- A timer that is not pending cannot fire: the delivery is a no-op with no
effects (in particular no `open` call). -/
theorem fire_dead_timer_noop (w : WSWorld) (id : Nat)
    (hmem : id ∉ pendingIds w) :
    stepW w (.timerFire id) = (w, []) := by
  have hf : w.pending.find? (fun e => e.id = id) = none := by
    rw [List.find?_eq_none]
    intro e he
    simp only [decide_eq_true_eq]
    intro hid
    exact hmem (by simp only [pendingIds, List.mem_map]; exact ⟨e, he, hid⟩)
  simp [stepW, wsFireTimer, hf]

/-- C7: calling `close()` while a reconnect timer is pending removes it from
the timer queue, and since timer ids are never reused, no later activity can
make that timer fire: delivering its expiry after the close, at any future
point, is a no-op with no effects, so no `open()` call ever results from
it. -/
theorem close_cancels_pending_reconnect :
    ∀ (w : WSWorld) (id : Nat) (es : List WEvent),
      w.ws.reconnectTimer = some id →
      id < w.nextId →
      id ∉ pendingIds ((wsClose w).1) ∧
      id ∉ pendingIds (runW es ((wsClose w).1)) ∧
      stepW (runW es ((wsClose w).1)) (.timerFire id) =
        (runW es ((wsClose w).1), []) := by
  intro w id es htimer hlt
  have hclear : id ∉ pendingIds ((clearReconnectTimer w).1) := by
    unfold clearReconnectTimer
    rw [htimer]
    simp [pendingIds, List.mem_filter]
  have hclosed : id ∉ pendingIds ((wsClose w).1) := by
    intro hc
    apply hclear
    unfold wsClose at hc
    cases hs : ((clearReconnectTimer w).1).ws.webSocket <;> rw [hs] at hc
    · exact hc
    · simpa [pendingIds] using hc
  have hnext : ((wsClose w).1).nextId = w.nextId := by
    unfold wsClose
    cases hs : ((clearReconnectTimer w).1).ws.webSocket <;>
      simp [clearReconnectTimer_nextId]
  have hrun := deadId_run es ((wsClose w).1) id (by rw [hnext]; exact hlt) hclosed
  exact ⟨hclosed, hrun.2, fire_dead_timer_noop _ id hrun.2⟩

/-- C7 witness: a socket whose first unexpected close scheduled timer 0;
`close()` cancels it, and after further activity (a fresh `open` and another
unexpected close scheduling a new timer) delivering timer 0's expiry is still
a no-op. -/
theorem close_cancels_pending_reconnect_witness :
    ((stepW (initW true EXPONENTIAL_BACKOFF) (.transportClose 1006 "lost" false)).1.ws.reconnectTimer
        = some 0 ∧
     0 < (stepW (initW true EXPONENTIAL_BACKOFF) (.transportClose 1006 "lost" false)).1.nextId) ∧
    (0 ∉ pendingIds ((wsClose (stepW (initW true EXPONENTIAL_BACKOFF)
        (.transportClose 1006 "lost" false)).1).1) ∧
     0 ∉ pendingIds (runW [.openCall "ws://a" none, .transportClose 1006 "lost" false]
        ((wsClose (stepW (initW true EXPONENTIAL_BACKOFF)
            (.transportClose 1006 "lost" false)).1).1)) ∧
     stepW (runW [.openCall "ws://a" none, .transportClose 1006 "lost" false]
        ((wsClose (stepW (initW true EXPONENTIAL_BACKOFF)
            (.transportClose 1006 "lost" false)).1).1)) (.timerFire 0) =
       (runW [.openCall "ws://a" none, .transportClose 1006 "lost" false]
        ((wsClose (stepW (initW true EXPONENTIAL_BACKOFF)
            (.transportClose 1006 "lost" false)).1).1), [])) :=
  ⟨⟨rfl, by decide⟩,
   close_cancels_pending_reconnect
     (stepW (initW true EXPONENTIAL_BACKOFF) (.transportClose 1006 "lost" false)).1 0
     [.openCall "ws://a" none, .transportClose 1006 "lost" false] rfl (by decide)⟩

/-- `connectStage2_` never changes the machine state. -/
theorem connectStage2_state (env : TCEnv) (tc : TestChannel) :
    ((connectStage2 env tc).1).state = tc.state := by
  unfold connectStage2
  split <;> split <;> rfl

/-- `connectStage2_` never changes the stored blocked prefix. -/
theorem connectStage2_blockedPrefix (env : TCEnv) (tc : TestChannel) :
    ((connectStage2 env tc).1).blockedPrefix = tc.blockedPrefix := by
  unfold connectStage2
  split <;> split <;> rfl

/-- `connectStage2_` never changes the probe bookkeeping. -/
theorem connectStage2_probeOutstanding (env : TCEnv) (tc : TestChannel) :
    ((connectStage2 env tc).1).probeOutstanding = tc.probeOutstanding := by
  unfold connectStage2
  split <;> split <;> rfl

/-- `connectStage2_` invokes no further `connectStage2_`. -/
theorem connectStage2_no_caller (env : TCEnv) (tc : TestChannel) (c : Caller) :
    TCEffect.calledConnectStage2 c ∉ (connectStage2 env tc).2 := by
  unfold connectStage2
  split <;> split <;> simp

/-- `connectStage2_` notifies no reachability event. -/
theorem connectStage2_no_reach (env : TCEnv) (tc : TestChannel) (r : Reach) :
    TCEffect.notifyReachability r ∉ (connectStage2 env tc).2 := by
  unfold connectStage2
  split <;> split <;> simp

/-- `onRequestData` invokes no `connectStage2_`. -/
theorem onRequestData_no_caller (env : TCEnv) (now status : Int) (text : String)
    (tc : TestChannel) (c : Caller) :
    TCEffect.calledConnectStage2 c ∉ (onRequestData env now status text tc).2 := by
  rcases hst : tc.state with _ | st
  · simp [onRequestData, hst]
  · cases st with
    | INIT =>
        by_cases he : text.isEmpty
        · simp [onRequestData, hst, he]
        · cases hp : env.parse text with
          | error e => simp [onRequestData, hst, he, hp]
          | ok arr => simp [onRequestData, hst, he, hp]
    | CHECKING_BLOCKED => simp [onRequestData, hst]
    | CONNECTION_TESTING =>
        by_cases hr : tc.receivedIntermediateResult
        · simp [onRequestData, hst, hr]
        · by_cases ht : text = "11111"
          · by_cases hearly : (env.supportsXhrStreaming = true ∨
                jsNum (some now) - jsNum tc.startTime < MIN_TIME_EXPECTED_BETWEEN_DATA)
            · simp [onRequestData, hst, hr, ht, hearly]
            · simp [onRequestData, hst, hr, ht, hearly]
          · simp [onRequestData, hst, hr, ht]

/-- `tcConnect` preserves `NoBlockedInv` when the cached stage-1 results (if
any) carry a falsy blocked prefix. -/
theorem tcConnect_noBlockedInv (env : TCEnv) (now : Int) (tc : TestChannel)
    (hcache : cacheFalsy env) (h : NoBlockedInv tc) :
    NoBlockedInv ((tcConnect env now tc).1) := by
  obtain ⟨hstate, hbp, hprobe⟩ := h
  unfold tcConnect
  cases hf : env.firstTestResults with
  | none => exact ⟨by simp, by simpa using hbp, by simpa using hprobe⟩
  | some arr =>
      have hfal := hcache arr hf
      refine ⟨?_, ?_, ?_⟩ <;>
        simp [hfal, checkBlocked, connectStage2_state, connectStage2_blockedPrefix,
              connectStage2_probeOutstanding, hbp, hprobe]

/-- `onRequestData` preserves `NoBlockedInv` when the parser's verdict on
the delivered text carries a falsy blocked prefix. -/
theorem onRequestData_noBlockedInv (env : TCEnv) (now status : Int) (text : String)
    (tc : TestChannel) (hp : parseFalsy env text) (h : NoBlockedInv tc) :
    NoBlockedInv ((onRequestData env now status text tc).1) := by
  obtain ⟨hstate, hbp, hprobe⟩ := h
  rcases hst : tc.state with _ | st
  · refine ⟨?_, ?_, ?_⟩ <;> simp [onRequestData, hst, hbp, hprobe]
  · cases st with
    | INIT =>
        by_cases he : text.isEmpty
        · refine ⟨?_, ?_, ?_⟩ <;> simp [onRequestData, hst, he, hbp, hprobe]
        · cases hp2 : env.parse text with
          | error e =>
              refine ⟨?_, ?_, ?_⟩ <;> simp [onRequestData, hst, he, hp2, hbp, hprobe]
          | ok arr =>
              refine ⟨?_, ?_, ?_⟩ <;>
                simp [onRequestData, hst, he, hp2, hbp, hprobe, hp arr hp2]
    | CHECKING_BLOCKED => exact absurd hst hstate
    | CONNECTION_TESTING =>
        by_cases hr : tc.receivedIntermediateResult
        · refine ⟨?_, ?_, ?_⟩ <;> simp [onRequestData, hst, hr, hbp, hprobe]
        · by_cases ht : text = "11111"
          · by_cases hearly :
              (env.supportsXhrStreaming ||
                decide (jsNum (some now) - jsNum tc.startTime <
                  MIN_TIME_EXPECTED_BETWEEN_DATA)) = true
            · refine ⟨?_, ?_, ?_⟩ <;>
                simp [onRequestData, hst, hr, ht, hearly, hbp, hprobe]
            · refine ⟨?_, ?_, ?_⟩ <;>
                simp [onRequestData, hst, hr, ht, hearly, hbp, hprobe]
          · refine ⟨?_, ?_, ?_⟩ <;> simp [onRequestData, hst, hr, ht, hbp, hprobe]

/-- `onRequestComplete` preserves `NoBlockedInv`. -/
theorem onRequestComplete_noBlockedInv (env : TCEnv) (success : Bool)
    (err : ChanErr) (status : Int) (tc : TestChannel) (h : NoBlockedInv tc) :
    NoBlockedInv ((onRequestComplete env success err status tc).1) := by
  obtain ⟨hstate, hbp, hprobe⟩ := h
  by_cases hsucc : success
  · rcases hst : tc.state with _ | st
    · refine ⟨?_, ?_, ?_⟩ <;> simp [onRequestComplete, hsucc, hst, hbp, hprobe]
    · cases st with
      | INIT =>
          refine ⟨?_, ?_, ?_⟩ <;>
            simp [onRequestComplete, hsucc, hst, hbp, hprobe, connectStage2_state,
                  connectStage2_blockedPrefix, connectStage2_probeOutstanding]
      | CHECKING_BLOCKED => exact absurd hst hstate
      | CONNECTION_TESTING =>
          refine ⟨?_, ?_, ?_⟩ <;>
            simp [onRequestComplete, hsucc, hst, hbp, hprobe, apply_ite]
  · have hs : success = false := by
      cases success
      · rfl
      · exact absurd rfl hsucc
    refine ⟨?_, ?_, ?_⟩ <;> simp [onRequestComplete, hs, hstate, hbp, hprobe]

/-- One step preserves `NoBlockedInv` under the falsy-blocked-prefix
hypotheses. -/
theorem noBlockedInv_step (env : TCEnv) (tc : TestChannel) (i : TCIn)
    (hcache : cacheFalsy env)
    (hdata : ∀ now status text, i = TCIn.dataIn now status text → parseFalsy env text)
    (h : NoBlockedInv tc) : NoBlockedInv ((stepT env tc i).1) := by
  cases i with
  | connectIn now => exact tcConnect_noBlockedInv env now tc hcache h
  | dataIn now status text =>
      by_cases hreq : tc.hasRequest
      · simpa [stepT, hreq] using
          onRequestData_noBlockedInv env now status text tc (hdata now status text rfl) h
      · simpa [stepT, hreq] using h
  | completeIn success err status =>
      by_cases hreq : tc.hasRequest
      · simpa [stepT, hreq] using
          onRequestComplete_noBlockedInv env success err status tc h
      · simpa [stepT, hreq] using h
  | blockedCbIn succeeded =>
      have hprobe := h.2.2
      simpa [stepT, hprobe] using h

/-- Every state visited by a run from a `NoBlockedInv` state under the
falsy-blocked-prefix hypotheses satisfies `NoBlockedInv`. -/
theorem noBlockedInv_states (env : TCEnv) (ins : List TCIn) (tc : TestChannel)
    (hcache : cacheFalsy env) (hins : insFalsy env ins) (h : NoBlockedInv tc) :
    ∀ s ∈ statesT env ins tc, NoBlockedInv s := by
  induction ins generalizing tc with
  | nil =>
      intro s hs
      simp only [statesT, List.mem_singleton] at hs
      subst hs
      exact h
  | cons i rest ih =>
      intro s hs
      simp only [statesT, List.mem_cons] at hs
      rcases hs with rfl | hs
      · exact h
      · have hstep := noBlockedInv_step env tc i hcache
          (fun now status text hi => hins now status text (hi ▸ List.mem_cons_self i rest)) h
        exact ih (stepT env tc i).1
          (fun now status text hm => hins now status text (List.mem_cons_of_mem i hm))
          hstep s hs

/-- If `connect` ran `connectStage2_`, the cached-results short-circuit was
taken with a falsy blocked prefix: the recorded caller is `connect` itself,
cached first-test results were present, and the machine is now in
CONNECTION_TESTING. -/
theorem tcConnect_caller (env : TCEnv) (now : Int) (tc : TestChannel) (c : Caller)
    (hmem : TCEffect.calledConnectStage2 c ∈ (tcConnect env now tc).2) :
    c = Caller.connectFn ∧ env.firstTestResults ≠ none ∧
    ((tcConnect env now tc).1).state = some TCState.CONNECTION_TESTING := by
  revert hmem
  cases hf : env.firstTestResults with
  | none =>
      intro hmem
      exact absurd hmem (by simp [tcConnect, hf])
  | some arr =>
      by_cases ht : jsTruthy (jsIndex arr 1) = true
      · intro hmem
        exact absurd hmem (by simp [tcConnect, hf, ht, checkBlocked])
      · have ht2 : jsTruthy (jsIndex arr 1) = false := by
          cases h : jsTruthy (jsIndex arr 1)
          · rfl
          · exact absurd h ht
        intro hmem
        refine ⟨?_, by simp [hf], by simp [tcConnect, hf, ht2, connectStage2_state]⟩
        simp [tcConnect, hf, ht2, connectStage2_no_caller] at hmem
        exact hmem

/-- If `onRequestComplete` ran `connectStage2_`, it did so from its INIT
completion branch: the recorded caller is `onRequestComplete` and the machine
is now in CONNECTION_TESTING. -/
theorem onRequestComplete_caller (env : TCEnv) (success : Bool) (err : ChanErr)
    (status : Int) (tc : TestChannel) (c : Caller)
    (hmem : TCEffect.calledConnectStage2 c ∈ (onRequestComplete env success err status tc).2) :
    c = Caller.onRequestCompleteFn ∧
    ((onRequestComplete env success err status tc).1).state = some TCState.CONNECTION_TESTING := by
  revert hmem
  by_cases hsucc : success
  · rcases hst : tc.state with _ | st
    · intro hmem
      exact absurd hmem (by simp [onRequestComplete, hsucc, hst])
    · cases st with
      | INIT =>
          by_cases hbp : jsTruthy tc.blockedPrefix = true
          · intro hmem
            exact absurd hmem (by simp [onRequestComplete, hsucc, hst, hbp, checkBlocked])
          · have hbp2 : jsTruthy tc.blockedPrefix = false := by
              cases h : jsTruthy tc.blockedPrefix
              · rfl
              · exact absurd h hbp
            intro hmem
            refine ⟨?_, by simp [onRequestComplete, hsucc, hst, hbp2, connectStage2_state]⟩
            simp [onRequestComplete, hsucc, hst, hbp2, connectStage2_no_caller] at hmem
            exact hmem
      | CHECKING_BLOCKED =>
          intro hmem
          exact absurd hmem (by simp [onRequestComplete, hsucc, hst])
      | CONNECTION_TESTING =>
          intro hmem
          refine absurd hmem ?_
          simp only [onRequestComplete, hsucc, hst]
          (repeat' split) <;> simp_all
  · have hs : success = false := by
      cases success
      · rfl
      · exact absurd rfl hsucc
    intro hmem
    refine absurd hmem ?_
    rcases hst : tc.state with _ | st
    · simp [onRequestComplete, hs, hst]
    · cases st <;> simp [onRequestComplete, hs, hst]

/-- If the blocked-probe callback ran `connectStage2_`, the probe succeeded:
the recorded caller is `checkBlockedCallback_` and the machine is now in
CONNECTION_TESTING. -/
theorem checkBlockedCallback_caller (env : TCEnv) (succeeded : Bool)
    (tc : TestChannel) (c : Caller)
    (hmem : TCEffect.calledConnectStage2 c ∈ (checkBlockedCallback env succeeded tc).2) :
    c = Caller.checkBlockedCallbackFn ∧
    ((checkBlockedCallback env succeeded tc).1).state = some TCState.CONNECTION_TESTING := by
  revert hmem
  by_cases hsucc : succeeded
  · intro hmem
    refine ⟨?_, by simp [checkBlockedCallback, hsucc, connectStage2_state]⟩
    simp [checkBlockedCallback, hsucc, connectStage2_no_caller] at hmem
    exact hmem
  · have hs : succeeded = false := by
      cases succeeded
      · rfl
      · exact absurd rfl hsucc
    intro hmem
    exact absurd hmem (by simp [checkBlockedCallback, hs])

/-- Whenever a step runs `connectStage2_`, the state at the end of that very
step is CONNECTION_TESTING: the transition is direct. -/
theorem caller_step_state (env : TCEnv) (tc : TestChannel) (i : TCIn) (c : Caller)
    (hmem : TCEffect.calledConnectStage2 c ∈ (stepT env tc i).2) :
    ((stepT env tc i).1).state = some TCState.CONNECTION_TESTING := by
  cases i with
  | connectIn now => exact (tcConnect_caller env now tc c hmem).2.2
  | dataIn now status text =>
      by_cases hreq : tc.hasRequest
      · exact absurd (by simpa [stepT, hreq] using hmem)
          (onRequestData_no_caller env now status text tc c)
      · exact absurd hmem (by simp [stepT, hreq])
  | completeIn success err status =>
      by_cases hreq : tc.hasRequest
      · have h := onRequestComplete_caller env success err status tc c
          (by simpa [stepT, hreq] using hmem)
        simpa [stepT, hreq] using h.2
      · exact absurd hmem (by simp [stepT, hreq])
  | blockedCbIn succeeded =>
      by_cases hpo : tc.probeOutstanding
      · have h := checkBlockedCallback_caller env succeeded tc c
          (by simpa [stepT, hpo] using hmem)
        simpa [stepT, hpo] using h.2
      · exact absurd hmem (by simp [stepT, hpo])

/-- Under `NoBlockedInv`, a step that runs `connectStage2_` is either the
cached short-circuit inside `connect` or the INIT completion branch of
`onRequestComplete` (never the blocked-probe callback, whose probe cannot be
outstanding). -/
theorem caller_step_origin (env : TCEnv) (tc : TestChannel) (i : TCIn) (c : Caller)
    (hinv : NoBlockedInv tc)
    (hmem : TCEffect.calledConnectStage2 c ∈ (stepT env tc i).2) :
    (c = Caller.connectFn ∧ env.firstTestResults ≠ none) ∨
    c = Caller.onRequestCompleteFn := by
  cases i with
  | connectIn now =>
      have h := tcConnect_caller env now tc c hmem
      exact Or.inl ⟨h.1, h.2.1⟩
  | dataIn now status text =>
      by_cases hreq : tc.hasRequest
      · exact absurd (by simpa [stepT, hreq] using hmem)
          (onRequestData_no_caller env now status text tc c)
      · exact absurd hmem (by simp [stepT, hreq])
  | completeIn success err status =>
      by_cases hreq : tc.hasRequest
      · exact Or.inr (onRequestComplete_caller env success err status tc c
          (by simpa [stepT, hreq] using hmem)).1
      · exact absurd hmem (by simp [stepT, hreq])
  | blockedCbIn succeeded =>
      exact absurd hmem (by simp [stepT, hinv.2.2])

/-- Over a whole falsy-blocked-prefix run, every `connectStage2_` call in the
trace originates from `connect` (cached results present) or from
`onRequestComplete`. -/
theorem caller_run (env : TCEnv) (ins : List TCIn) :
    ∀ tc, cacheFalsy env → insFalsy env ins → NoBlockedInv tc →
      ∀ c, TCEffect.calledConnectStage2 c ∈ traceT env ins tc →
        (c = Caller.connectFn ∧ env.firstTestResults ≠ none) ∨
        c = Caller.onRequestCompleteFn := by
  induction ins with
  | nil =>
      intro tc _ _ _ c hc
      simp [traceT] at hc
  | cons i rest ih =>
      intro tc hcache hins hinv c hc
      rw [traceT, List.mem_append] at hc
      rcases hc with hc | hc
      · exact caller_step_origin env tc i c hinv hc
      · exact ih (stepT env tc i).1 hcache
          (fun n s t hm => hins n s t (List.mem_cons_of_mem i hm))
          (noBlockedInv_step env tc i hcache
            (fun n s t hi => hins n s t (hi ▸ List.mem_cons_self i rest)) hinv)
          c hc

/-- C4 counterexample: with cached first-test results `["hostA", ""]` (falsy
blocked prefix), the run consisting of the single `connect` call records a
`connectStage2_` invocation from `connect` itself, and none from the INIT
completion handler (`onRequestComplete`) — no stage-1 request ever runs — so
"connectStage2 is called from the INIT completion handler" fails for the
cached path the claim explicitly includes. -/
theorem falsy_blocked_init_handler_counterexample :
    jsTruthy (jsIndex [some "hostA", some ""] 1) = false ∧
    TCEffect.calledConnectStage2 Caller.connectFn ∈
      traceT envCachedFalsyBlocked [.connectIn 0] mkTestChannel ∧
    TCEffect.calledConnectStage2 Caller.onRequestCompleteFn ∉
      traceT envCachedFalsyBlocked [.connectIn 0] mkTestChannel ∧
    Caller.connectFn ≠ Caller.onRequestCompleteFn := by
  refine ⟨by decide, ?_, ?_, by decide⟩ <;> decide

/-- C4 amended: in every run whose stage-1 outcome (cached or parsed from
the network) yields a falsy blocked prefix, the state CHECKING_BLOCKED is
never entered; every `connectStage2_` call is made either directly from
`connect` (cached first-test results short-circuit, in which case cached
results were present) or from the INIT completion branch of
`onRequestComplete`; and any step that calls `connectStage2_` puts the
machine in CONNECTION_TESTING in that same step. -/
theorem falsy_blocked_prefix_no_checking_blocked :
    ∀ (env : TCEnv) (ins : List TCIn),
      cacheFalsy env → insFalsy env ins →
      (∀ s ∈ statesT env ins mkTestChannel, s.state ≠ some TCState.CHECKING_BLOCKED) ∧
      (∀ c, TCEffect.calledConnectStage2 c ∈ traceT env ins mkTestChannel →
        (c = Caller.connectFn ∧ env.firstTestResults ≠ none) ∨
        c = Caller.onRequestCompleteFn) ∧
      (∀ (tc : TestChannel) (i : TCIn) (c : Caller),
        TCEffect.calledConnectStage2 c ∈ (stepT env tc i).2 →
        ((stepT env tc i).1).state = some TCState.CONNECTION_TESTING) := by
  intro env ins hcache hins
  have hinv0 : NoBlockedInv mkTestChannel := ⟨by simp [mkTestChannel], rfl, rfl⟩
  refine ⟨?_, ?_, ?_⟩
  · intro s hs
    exact (noBlockedInv_states env ins mkTestChannel hcache hins hinv0 s hs).1
  · exact caller_run env ins mkTestChannel hcache hins hinv0
  · intro tc i c hmem
    exact caller_step_state env tc i c hmem

/-- C4 witness: the amended theorem on the concrete network-path run — a
`connect`, the stage-1 data `["hostA",""]`, and its successful completion. -/
theorem falsy_blocked_prefix_no_checking_blocked_witness :
    cacheFalsy envNetworkFalsy ∧
    insFalsy envNetworkFalsy
      [.connectIn 0, .dataIn 50 200 "[\"hostA\",\"\"]", .completeIn true .STATUS 200] ∧
    ((∀ s ∈ statesT envNetworkFalsy
        [.connectIn 0, .dataIn 50 200 "[\"hostA\",\"\"]", .completeIn true .STATUS 200]
        mkTestChannel, s.state ≠ some TCState.CHECKING_BLOCKED) ∧
     (∀ c, TCEffect.calledConnectStage2 c ∈ traceT envNetworkFalsy
        [.connectIn 0, .dataIn 50 200 "[\"hostA\",\"\"]", .completeIn true .STATUS 200]
        mkTestChannel →
        (c = Caller.connectFn ∧ envNetworkFalsy.firstTestResults ≠ none) ∨
        c = Caller.onRequestCompleteFn) ∧
     (∀ (tc : TestChannel) (i : TCIn) (c : Caller),
        TCEffect.calledConnectStage2 c ∈ (stepT envNetworkFalsy tc i).2 →
        ((stepT envNetworkFalsy tc i).1).state = some TCState.CONNECTION_TESTING)) := by
  have hcache : cacheFalsy envNetworkFalsy := by
    intro arr h
    simp [envNetworkFalsy] at h
  have hins : insFalsy envNetworkFalsy
      [.connectIn 0, .dataIn 50 200 "[\"hostA\",\"\"]", .completeIn true .STATUS 200] := by
    intro now status text hmem arr hparse
    simp only [List.mem_cons, List.not_mem_nil, or_false] at hmem
    rcases hmem with h | h | h
    · exact absurd h (by simp)
    · have ht : text = "[\"hostA\",\"\"]" := by
        injection h with h1 h2 h3
      subst ht
      simp only [envNetworkFalsy, if_pos rfl] at hparse
      injection hparse with h4
      subst h4
      decide
    · exact absurd h (by simp)
  exact ⟨hcache, hins,
    falsy_blocked_prefix_no_checking_blocked envNetworkFalsy
      [.connectIn 0, .dataIn 50 200 "[\"hostA\",\"\"]", .completeIn true .STATUS 200]
      hcache hins⟩

/-- Every event the retrying probe itself produces is a probe attempt —
in particular it notifies no reachability event (it has no sink). -/
theorem probeModel_events (r : Nat) :
    ∀ (outcomes : List Bool), ∀ e ∈ (probeModel r outcomes).1,
      e = TCEffect.probeAttempt := by
  induction r with
  | zero =>
      intro outcomes e he
      unfold probeModel at he
      cases hh : outcomes.head?.getD false
      · simp [hh] at he
        exact he
      · simp [hh] at he
        exact he
  | succ r ih =>
      intro outcomes e he
      unfold probeModel at he
      cases hh : outcomes.head?.getD false
      · simp [hh] at he
        rcases he with rfl | he
        · rfl
        · exact ih outcomes.tail e he
      · simp [hh] at he
        exact he

/-- The probe always issues at least one attempt. -/
theorem probeModel_ne_nil (r : Nat) (outcomes : List Bool) :
    (probeModel r outcomes).1 ≠ [] := by
  unfold probeModel
  cases hh : outcomes.head?.getD false
  · cases r <;> simp [hh]
  · simp [hh]

/-- A list of pure probe attempts contains no reachability notification. -/
theorem count_reach_of_attempts (l : List TCEffect)
    (h : ∀ e ∈ l, e = TCEffect.probeAttempt) (r : Reach) :
    l.count (TCEffect.notifyReachability r) = 0 := by
  rw [List.count_eq_zero]
  intro hmem
  exact absurd (h _ hmem) (by simp)

/-- `connectStage2_` contributes no reachability notification to a count. -/
theorem connectStage2_count_reach (env : TCEnv) (tc : TestChannel) (r : Reach) :
    ((connectStage2 env tc).2).count (TCEffect.notifyReachability r) = 0 := by
  rw [List.count_eq_zero]
  exact connectStage2_no_reach env tc r

/-- The blocked-probe callback notifies no `REQUEST_MADE`. -/
theorem checkBlockedCallback_count_made (env : TCEnv) (b : Bool) (tc : TestChannel) :
    ((checkBlockedCallback env b tc).2).count
      (TCEffect.notifyReachability Reach.REQUEST_MADE) = 0 := by
  cases b with
  | false => simp [checkBlockedCallback]
  | true =>
      simp [checkBlockedCallback, List.count_cons, List.count_append,
            connectStage2_count_reach]

/-- The blocked-probe callback notifies `REQUEST_SUCCEEDED` exactly on
overall success. -/
theorem checkBlockedCallback_count_succ (env : TCEnv) (b : Bool) (tc : TestChannel) :
    ((checkBlockedCallback env b tc).2).count
      (TCEffect.notifyReachability Reach.REQUEST_SUCCEEDED) =
      (if b then 1 else 0) := by
  cases b with
  | false => simp [checkBlockedCallback]
  | true =>
      simp [checkBlockedCallback, List.count_cons, List.count_append,
            connectStage2_count_reach]

/-- C8 counterexample: a blocked check whose first probe attempt fails and
whose second succeeds makes two probe attempts but notifies exactly one
"request made" reachability event — and even that single event comes after
the first probe attempt is issued, not before it — refuting "every
individual probe attempt emits a request-made event before the probe is
issued". -/
theorem per_attempt_request_made_counterexample :
    (blockedCheckTrace envBlockedCheck [false, true] tcAtCheckingBlocked).count
      TCEffect.probeAttempt = 2 ∧
    (blockedCheckTrace envBlockedCheck [false, true] tcAtCheckingBlocked).count
      (TCEffect.notifyReachability Reach.REQUEST_MADE) = 1 ∧
    ¬((blockedCheckTrace envBlockedCheck [false, true] tcAtCheckingBlocked).count
        TCEffect.probeAttempt ≤
      (blockedCheckTrace envBlockedCheck [false, true] tcAtCheckingBlocked).count
        (TCEffect.notifyReachability Reach.REQUEST_MADE)) ∧
    (blockedCheckTrace envBlockedCheck [false, true] tcAtCheckingBlocked).head? =
      some TCEffect.probeAttempt := by
  refine ⟨?_, ?_, ?_, ?_⟩ <;> decide

/-- C8 amended: every blocked check notifies exactly one "request made"
reachability event, emitted immediately after the first probe attempt is
issued (not once per attempt, and not before the probe), and notifies
"request succeeded" exactly once on overall probe success and never
otherwise. -/
theorem blocked_check_single_request_made :
    ∀ (env : TCEnv) (outcomes : List Bool) (tc : TestChannel),
      (blockedCheckTrace env outcomes tc).count
        (TCEffect.notifyReachability Reach.REQUEST_MADE) = 1 ∧
      (blockedCheckTrace env outcomes tc).count
        (TCEffect.notifyReachability Reach.REQUEST_SUCCEEDED) =
        (if (probeModel BLOCKED_RETRIES outcomes).2 then 1 else 0) ∧
      (blockedCheckTrace env outcomes tc).take 2 =
        [TCEffect.probeAttempt, TCEffect.notifyReachability Reach.REQUEST_MADE] := by
  intro env outcomes tc
  rcases hp : (probeModel BLOCKED_RETRIES outcomes).1 with _ | ⟨first, rest⟩
  · exact absurd hp (probeModel_ne_nil BLOCKED_RETRIES outcomes)
  · have hfirst : first = TCEffect.probeAttempt :=
      probeModel_events BLOCKED_RETRIES outcomes first (hp ▸ List.mem_cons_self first rest)
    have hrest : ∀ e ∈ rest, e = TCEffect.probeAttempt := fun e he =>
      probeModel_events BLOCKED_RETRIES outcomes e (hp ▸ List.mem_cons_of_mem first he)
    have hrest_made := count_reach_of_attempts rest hrest Reach.REQUEST_MADE
    have hrest_succ := count_reach_of_attempts rest hrest Reach.REQUEST_SUCCEEDED
    refine ⟨?_, ?_, ?_⟩ <;>
      simp [blockedCheckTrace, hp, hfirst, List.count_cons, List.count_append,
            hrest_made, hrest_succ, checkBlockedCallback_count_made,
            checkBlockedCallback_count_succ]

end ClosureNet
